import Mathlib

/-!
Verification of the job-polling pattern and related handlers of the
firefly-demo-application backend.

The embedding models, from the source:
* `src/backend/automate_workflow.py`: the three status-polling loops
  `check_photoshop_job_status`, `check_firefly_job_status`,
  `check_lightroom_job_status`;
* `src/backend/main.py`: the `/complete-image-callback` poll loop
  `success_image_callback` (with its process-global `fetch_count` counter and
  exponential sleep), the missing-access-token preludes of the job-related
  handlers, and the `/get-s3-presigned-url` endpoint;
* `src/backend/aws.py`: `generate_presigned_url`.

JSON response bodies are modelled by an inductive `JVal`; each HTTP GET issued
by a poll loop is modelled by the `HttpResp` the server answers with, so a poll
loop becomes a function from the list of successive responses to a trace
recording how many GETs were issued, the sleeps performed, and the outcome.
-/

/-- A JSON value, restricted to the shapes the polled status bodies use:
strings, arrays, objects and null. -/
inductive JVal where
  | str (s : String)
  | arr (elems : List JVal)
  | obj (fields : List (String × JVal))
  | null

/-- Python `dict.get` / `dict[...]` key lookup on an association list. -/
def lookupField (k : String) : List (String × JVal) → Option JVal
  | [] => none
  | (k₀, v) :: rest => if k₀ = k then some v else lookupField k rest

/-- Field access on a JSON value: `some v` when the value is an object with the
key present, `none` otherwise (models Python `dict.get(key)` returning `None`
for a missing key). -/
def JVal.getField : JVal → String → Option JVal
  | .obj fields, k => lookupField k fields
  | _, _ => none

/-- The string content of a JSON value, `none` when it is not a string. -/
def JVal.asStr : JVal → Option String
  | .str s => some s
  | _ => none

/-- Python truthiness of a JSON value (`if outputs:`): empty strings, empty
arrays, empty objects and null are falsy. -/
def JVal.truthy : JVal → Bool
  | .str s => decide (s ≠ "")
  | .arr l => !l.isEmpty
  | .obj l => !l.isEmpty
  | .null => false

/-- One HTTP response to a status GET: the status code and the JSON body. -/
structure HttpResp where
  statusCode : Nat
  body : JVal

/-- `requests.Response.raise_for_status` raises `HTTPError` exactly for
status codes in [400, 600). -/
def raisesForStatus (c : Nat) : Bool := decide (400 ≤ c ∧ c < 600)

/-- How a poll loop ends, as observed by its caller. -/
inductive PollOutcome where
  | returned (v : JVal)
  | noneAfterLog (succeeded : Bool)
  | noneNoLog
  | transport (code : Nat)
  | pyError (msg : String)
  | needMore

/-- The observable trace of one poll-loop run on a finite list of responses:
the number of GET requests issued, the sleep durations in order, and the
outcome.  `outcome = needMore` means the loop consumed every supplied response
and is still polling. -/
structure PollTrace where
  gets : Nat
  sleeps : List Nat
  outcome : PollOutcome

/-- `status not in ['succeeded', 'failed', 'cancelled']` negated: the terminal
test of `check_firefly_job_status` (automate_workflow.py line 147). -/
def terminal3 (s : Option String) : Bool :=
  decide (s = some "succeeded" ∨ s = some "failed" ∨ s = some "cancelled")

/-- `status not in ['succeeded', 'failed']` negated: the terminal test of the
photoshop / lightroom loops and of `success_image_callback`. -/
def terminal2 (s : Option String) : Bool :=
  decide (s = some "succeeded" ∨ s = some "failed")

/-- The post-loop branch of the photoshop / lightroom loops: print a success
or failure line, return Python `None`. -/
def exitLog (status : Option String) : PollOutcome :=
  if status = some "succeeded" then .noneAfterLog true else .noneAfterLog false

/-- `status_response['result']['outputs'][0]['image']['url']`: the success
branch of `check_firefly_job_status` (automate_workflow.py line 157); a missing
key raises `KeyError`, an empty array raises `IndexError`. -/
def fireflySuccess (body : JVal) : PollOutcome :=
  match body.getField "result" with
  | none => .pyError "KeyError"
  | some r =>
    match r.getField "outputs" with
    | none => .pyError "KeyError"
    | some (.arr []) => .pyError "IndexError"
    | some (.arr (o :: _)) =>
      match o.getField "image" with
      | none => .pyError "KeyError"
      | some im =>
        match im.getField "url" with
        | none => .pyError "KeyError"
        | some u => .returned u
    | some _ => .pyError "TypeError"

/-- The loop-exit branch of `check_firefly_job_status` (lines 155-161): on
`succeeded` it digs the image url out of the last response body, otherwise it
prints a failure line and returns `None`.  With no response consumed yet the
variable `status_response` is unbound (`NameError`); that case is unreachable
from the entry point, whose initial status is `'pending'`. -/
def fireflyExitOutcome (status : Option String) (lastBody : Option JVal) : PollOutcome :=
  if status = some "succeeded" then
    match lastBody with
    | some b => fireflySuccess b
    | none => .pyError "NameError"
  else .noneAfterLog false

/-- The trace of exiting the firefly loop: no further GET, no further sleep. -/
def fireflyExit (status : Option String) (lastBody : Option JVal) : PollTrace :=
  ⟨0, [], fireflyExitOutcome status lastBody⟩

/-- The `while status not in ['succeeded','failed','cancelled']` loop of
`check_firefly_job_status` (automate_workflow.py lines 146-161): sleep 5s, GET,
`raise_for_status`, `status = status_response.get('status')`.  A present
non-string status value compares unequal to every terminal string in Python,
so it is modelled, like an absent field, as `none`. -/
def fireflyLoop : Option String → Option JVal → List HttpResp → PollTrace
  | status, lastBody, [] =>
    if terminal3 status then fireflyExit status lastBody else ⟨0, [], .needMore⟩
  | status, lastBody, r :: rest =>
    if terminal3 status then fireflyExit status lastBody
    else if raisesForStatus r.statusCode then ⟨1, [5], .transport r.statusCode⟩
    else
      let t := fireflyLoop ((r.body.getField "status").bind JVal.asStr) (some r.body) rest
      ⟨t.gets + 1, 5 :: t.sleeps, t.outcome⟩

/-- `check_firefly_job_status` (automate_workflow.py lines 136-161), as a
function of the successive GET responses; the initial status is `'pending'`. -/
def check_firefly_job_status (resps : List HttpResp) : PollTrace :=
  fireflyLoop (some "pending") none resps

/-- The `while status not in ['succeeded','failed']` loop of
`check_photoshop_job_status` (automate_workflow.py lines 80-92): sleep 5s, GET,
`raise_for_status`, top-level `status` field; afterwards it only prints and
returns `None`. -/
def photoshopLoop : Option String → List HttpResp → PollTrace
  | status, [] =>
    if terminal2 status then ⟨0, [], exitLog status⟩ else ⟨0, [], .needMore⟩
  | status, r :: rest =>
    if terminal2 status then ⟨0, [], exitLog status⟩
    else if raisesForStatus r.statusCode then ⟨1, [5], .transport r.statusCode⟩
    else
      let t := photoshopLoop ((r.body.getField "status").bind JVal.asStr) rest
      ⟨t.gets + 1, 5 :: t.sleeps, t.outcome⟩

/-- `check_photoshop_job_status` (automate_workflow.py lines 72-92); the
initial status is `'submitted'`. -/
def check_photoshop_job_status (resps : List HttpResp) : PollTrace :=
  photoshopLoop (some "submitted") resps

/-- Status extraction of `check_lightroom_job_status` (lines 207-209):
`outputs = status_response.get('outputs', [])`, then only `if outputs:` is the
status reassigned to `outputs[0].get('status')`; a falsy `outputs` leaves the
previous status in place.  A truthy non-array `outputs`, or a first element
that is not an object, raises. -/
def lightroomExtract (body : JVal) (old : Option String) : Except String (Option String) :=
  match body.getField "outputs" with
  | none => .ok old
  | some (.arr []) => .ok old
  | some (.arr (JVal.obj fs :: _)) => .ok ((lookupField "status" fs).bind JVal.asStr)
  | some (.arr (_ :: _)) => .error "AttributeError"
  | some v => if v.truthy then .error "TypeError" else .ok old

/-- The `while status not in ['succeeded','failed']` loop of
`check_lightroom_job_status` (automate_workflow.py lines 201-216): sleep 5s,
GET, `raise_for_status`, nested status extraction; afterwards it only prints
and returns `None`. -/
def lightroomLoop : Option String → List HttpResp → PollTrace
  | status, [] =>
    if terminal2 status then ⟨0, [], exitLog status⟩ else ⟨0, [], .needMore⟩
  | status, r :: rest =>
    if terminal2 status then ⟨0, [], exitLog status⟩
    else if raisesForStatus r.statusCode then ⟨1, [5], .transport r.statusCode⟩
    else
      match lightroomExtract r.body status with
      | .error m => ⟨1, [5], .pyError m⟩
      | .ok st =>
        let t := lightroomLoop st rest
        ⟨t.gets + 1, 5 :: t.sleeps, t.outcome⟩

/-- `check_lightroom_job_status` (automate_workflow.py lines 191-216); the
initial status is `'pending'`. -/
def check_lightroom_job_status (resps : List HttpResp) : PollTrace :=
  lightroomLoop (some "pending") resps

/-- Status extraction of `success_image_callback` (main.py lines 195-198):
`if "status" in retrieved_image:` take the top-level field, `elif "status" in
retrieved_image["outputs"][0]:` take the nested one; when neither branch fires
the previous status is kept.  A body without either key raises `KeyError`, an
empty `outputs` array raises `IndexError`. -/
def imageExtract (body : JVal) (old : Option String) : Except String (Option String) :=
  match body.getField "status" with
  | some v => .ok v.asStr
  | none =>
    match body.getField "outputs" with
    | none => .error "KeyError"
    | some (.arr []) => .error "IndexError"
    | some (.arr (JVal.obj fs :: _)) =>
      match lookupField "status" fs with
      | some v => .ok v.asStr
      | none => .ok old
    | some (.arr (_ :: _)) => .error "TypeError"
    | some _ => .error "TypeError"

/-- The `while status != "succeeded" and status != "failed"` loop of
`success_image_callback` (main.py lines 190-205).  The first component of the
state is the process-global `fetch_count`, incremented at the top of every
iteration (line 193) and never reset; on a non-terminal status the loop sleeps
`2 ** fetch_count` seconds (lines 200-202), on a terminal status it returns the
retrieved body at once.  The result pairs the trace with the final value of the
global counter. -/
def imageCallbackLoop : Nat → Option String → List HttpResp → PollTrace × Nat
  | fc, status, [] =>
    if terminal2 status then (⟨0, [], .noneNoLog⟩, fc) else (⟨0, [], .needMore⟩, fc)
  | fc, status, r :: rest =>
    if terminal2 status then (⟨0, [], .noneNoLog⟩, fc)
    else if raisesForStatus r.statusCode then (⟨1, [], .transport r.statusCode⟩, fc + 1)
    else
      match imageExtract r.body status with
      | .error m => (⟨1, [], .pyError m⟩, fc + 1)
      | .ok st =>
        if terminal2 st then (⟨1, [], .returned r.body⟩, fc + 1)
        else
          let t := imageCallbackLoop (fc + 1) st rest
          (⟨t.1.gets + 1, 2 ^ (fc + 1) :: t.1.sleeps, t.1.outcome⟩, t.2)

/-- `success_image_callback` (main.py lines 183-205), given the value of the
global `fetch_count` at entry and the successive GET responses; the initial
status is the empty string. -/
def success_image_callback (fetchCount : Nat) (resps : List HttpResp) : PollTrace × Nat :=
  imageCallbackLoop fetchCount (some "") resps

/-- A body `{"status": s}`. -/
def statusBody (s : String) : JVal := .obj [("status", .str s)]

/-- A 200 response with body `{"status": s}`. -/
def statusResp (s : String) : HttpResp := ⟨200, statusBody s⟩

/-- A body `{"outputs": [{"status": s}]}` with no top-level status field. -/
def nestedBody (s : String) : JVal := .obj [("outputs", .arr [.obj [("status", .str s)]])]

/-- A 200 response with body `{"outputs": [{"status": s}]}`. -/
def nestedResp (s : String) : HttpResp := ⟨200, nestedBody s⟩

/-- A 200 response with body `{"outputs": []}`. -/
def emptyOutputsResp : HttpResp := ⟨200, .obj [("outputs", .arr [])]⟩

/-- A 200 response with body `{"outputs": [{}]}`: the first output carries no
status field. -/
def blankOutputResp : HttpResp := ⟨200, .obj [("outputs", .arr [.obj []])]⟩

/-- The job-related handlers of main.py that guard on the `access_token`
cookie (every such handler except `/crop-image`, which instead fetches a fresh
token).  One constructor per route, in source order. -/
inductive VendorEndpoint where
  | generateImage
  | generateObjectComposite
  | completeImageCallback
  | checkImageStatus
  | cancelImageJob
  | imageUpload
  | expandImageAsync
  | expandImageAllSizes
  | generateSimilarAsync
  | listCustomModels
  | generateVideoFromText
  | removeBackgroundAsync
  | getPsdStatus
  | availableVoices
  | availableAvatars
  | generateAvatarVideo
  | generateAudioFromText
  | dubVideo
  | reframeVideo
  | checkAudioVideoStatus
  | autoTone
  | lightroomStatus
deriving DecidableEq

/-- A raised FastAPI `HTTPException`, carrying its HTTP status code. -/
inductive PyExc where
  | httpException (status : Nat)
deriving DecidableEq

/-- The cookie guard shared by the handlers:
`if not access_token: raise HTTPException(status_code=401, ...)`. -/
def cookieCheck (cookie : Option String) : Except PyExc String :=
  match cookie with
  | none => .error (.httpException 401)
  | some t => .ok t

/-- `except Exception as e: raise HTTPException(status_code=500, ...)`:
`fastapi.HTTPException` is a subclass of `Exception`, so the blanket handler
catches a raised 401 too and re-raises it with status 500. -/
def exceptTo500 {α : Type} : Except PyExc α → Except PyExc α
  | .error _ => .error (.httpException 500)
  | .ok v => .ok v

/-- The three handlers whose cookie guard sits inside a
`try ... except Exception` block that re-raises everything as a 500:
`reframe_video` (main.py lines 642-666), `auto_tone` (lines 690-714),
`get_lightroom_status` (lines 719-742).  Every other guarded handler raises
the 401 outside any such block. -/
def tryWrapsCookieCheck : VendorEndpoint → Bool
  | .reframeVideo => true
  | .autoTone => true
  | .lightroomStatus => true
  | _ => false

/-- The cookie-guard prelude of a handler, as the caller observes it. -/
def handlerAuthPrelude (e : VendorEndpoint) (cookie : Option String) : Except PyExc String :=
  if tryWrapsCookieCheck e then exceptTo500 (cookieCheck cookie) else cookieCheck cookie

/-- Running a guarded handler up to its outbound vendor request: every handler
issues its `requests.*` call only after the cookie guard has passed, so the
second component counts the outbound vendor requests performed. -/
def handlerRun (e : VendorEndpoint) (cookie : Option String) : Except PyExc String × Nat :=
  match handlerAuthPrelude e cookie with
  | .error exc => (.error exc, 0)
  | .ok tok => (.ok tok, 1)

/-- The (method, bucket, key) triple passed to
`s3_client.generate_presigned_url`, standing in for the opaque URL string the
AWS SDK would mint from it. -/
structure PresignReq where
  clientMethod : String
  bucket : String
  key : String
deriving DecidableEq

/-- `generate_presigned_url` (aws.py lines 21-44): for `put_object` the key is
rewritten to `altered/<key>` before signing; the function returns the signed
URL together with the key with any `thumbnails/` occurrence removed. -/
def generate_presigned_url (bucket_name key : String) (method : String) : PresignReq × String :=
  let key := if method = "put_object" then "altered/" ++ key else key
  (⟨method, bucket_name, key⟩, key.replace "thumbnails/" "")

/-- The `/get-s3-presigned-url` handler (main.py lines 788-796): any method
other than `put_object` is coerced to `get_object` before delegating to
`generate_presigned_url`. -/
def get_s3_presigned_url (bucket_name key method : String) : PresignReq × String :=
  let method := if method = "put_object" then method else "get_object"
  generate_presigned_url bucket_name key method

theorem terminal2_false_of_terminal3 {s : Option String} (h : terminal3 s = false) :
    terminal2 s = false := by
  simp only [terminal2, terminal3, decide_eq_false_iff_not] at *
  tauto

theorem terminal3_of_terminal2 {s : Option String} (h : terminal2 s = true) :
    terminal3 s = true := by
  simp only [terminal2, terminal3, decide_eq_true_eq] at *
  tauto

theorem raisesForStatus_200 : raisesForStatus 200 = false := by decide

theorem raisesForStatus_500 : raisesForStatus 500 = true := by decide

theorem statusResp_extract (s : String) :
    ((statusResp s).body.getField "status").bind JVal.asStr = some s := by
  simp [statusResp, statusBody, JVal.getField, lookupField, JVal.asStr]

theorem fireflyLoop_terminal (status : Option String) (lb : Option JVal)
    (resps : List HttpResp) (h : terminal3 status = true) :
    fireflyLoop status lb resps = fireflyExit status lb := by
  cases resps <;> simp [fireflyLoop, h]

theorem fireflyLoop_cons_status (status : Option String) (lb : Option JVal) (s : String)
    (rest : List HttpResp) (h : terminal3 status = false) :
    fireflyLoop status lb (statusResp s :: rest)
      = ⟨(fireflyLoop (some s) (some (statusBody s)) rest).gets + 1,
         5 :: (fireflyLoop (some s) (some (statusBody s)) rest).sleeps,
         (fireflyLoop (some s) (some (statusBody s)) rest).outcome⟩ := by
  simp [fireflyLoop, h, statusResp, statusBody, JVal.getField, lookupField, JVal.asStr,
    raisesForStatus_200]

theorem photoshopLoop_terminal (status : Option String) (resps : List HttpResp)
    (h : terminal2 status = true) :
    photoshopLoop status resps = ⟨0, [], exitLog status⟩ := by
  cases resps <;> simp [photoshopLoop, h]

theorem photoshopLoop_cons_status (status : Option String) (s : String)
    (rest : List HttpResp) (h : terminal2 status = false) :
    photoshopLoop status (statusResp s :: rest)
      = ⟨(photoshopLoop (some s) rest).gets + 1,
         5 :: (photoshopLoop (some s) rest).sleeps,
         (photoshopLoop (some s) rest).outcome⟩ := by
  simp [photoshopLoop, h, statusResp, statusBody, JVal.getField, lookupField, JVal.asStr,
    raisesForStatus_200]

theorem lightroomLoop_terminal (status : Option String) (resps : List HttpResp)
    (h : terminal2 status = true) :
    lightroomLoop status resps = ⟨0, [], exitLog status⟩ := by
  cases resps <;> simp [lightroomLoop, h]

theorem lightroomExtract_nested (s : String) (old : Option String) :
    lightroomExtract (nestedBody s) old = .ok (some s) := by
  simp [lightroomExtract, nestedBody, JVal.getField, lookupField, JVal.asStr]

theorem imageExtract_nested (s : String) (old : Option String) :
    imageExtract (nestedBody s) old = .ok (some s) := by
  simp [imageExtract, nestedBody, JVal.getField, lookupField, JVal.asStr]

theorem imageExtract_status (s : String) (old : Option String) :
    imageExtract (statusBody s) old = .ok (some s) := by
  simp [imageExtract, statusBody, JVal.getField, lookupField, JVal.asStr]

theorem lightroomLoop_cons_nested (status : Option String) (s : String)
    (rest : List HttpResp) (h : terminal2 status = false) :
    lightroomLoop status (nestedResp s :: rest)
      = ⟨(lightroomLoop (some s) rest).gets + 1,
         5 :: (lightroomLoop (some s) rest).sleeps,
         (lightroomLoop (some s) rest).outcome⟩ := by
  simp [lightroomLoop, h, nestedResp, raisesForStatus_200, lightroomExtract_nested]

theorem imageCallbackLoop_terminal (fc : Nat) (status : Option String)
    (resps : List HttpResp) (h : terminal2 status = true) :
    imageCallbackLoop fc status resps = (⟨0, [], .noneNoLog⟩, fc) := by
  cases resps <;> simp [imageCallbackLoop, h]

theorem imageCallbackLoop_cons_status (fc : Nat) (status : Option String) (s : String)
    (rest : List HttpResp) (h : terminal2 status = false) (hs : terminal2 (some s) = false) :
    imageCallbackLoop fc status (statusResp s :: rest)
      = (⟨(imageCallbackLoop (fc + 1) (some s) rest).1.gets + 1,
          2 ^ (fc + 1) :: (imageCallbackLoop (fc + 1) (some s) rest).1.sleeps,
          (imageCallbackLoop (fc + 1) (some s) rest).1.outcome⟩,
         (imageCallbackLoop (fc + 1) (some s) rest).2) := by
  simp [imageCallbackLoop, h, hs, statusResp, raisesForStatus_200, imageExtract_status]

theorem imageCallbackLoop_cons_status_done (fc : Nat) (status : Option String) (s : String)
    (rest : List HttpResp) (h : terminal2 status = false) (hs : terminal2 (some s) = true) :
    imageCallbackLoop fc status (statusResp s :: rest) = (⟨1, [], .returned (statusBody s)⟩, fc + 1) := by
  simp [imageCallbackLoop, h, hs, statusResp, raisesForStatus_200, imageExtract_status]

theorem imageCallbackLoop_cons_nested_done (fc : Nat) (status : Option String) (s : String)
    (rest : List HttpResp) (h : terminal2 status = false) (hs : terminal2 (some s) = true) :
    imageCallbackLoop fc status (nestedResp s :: rest) = (⟨1, [], .returned (nestedBody s)⟩, fc + 1) := by
  simp [imageCallbackLoop, h, hs, nestedResp, raisesForStatus_200, imageExtract_nested]

theorem pow_sleeps_shift (g n : Nat) :
    (2 : Nat) ^ (g + 1) :: (List.range n).map (fun k => 2 ^ (g + 1 + k + 1))
      = (List.range (n + 1)).map (fun k => 2 ^ (g + k + 1)) := by
  rw [List.range_succ_eq_map, List.map_cons, List.map_map]
  refine congrArg₂ List.cons (by norm_num) ?_
  refine List.map_congr_left ?_
  intro k _
  show 2 ^ (g + 1 + k + 1) = 2 ^ (g + (k + 1) + 1)
  congr 1
  omega

theorem fireflyLoop_run (pre : List String) (t : String) (post : List HttpResp)
    (ht : terminal3 (some t) = true) :
    ∀ (status : Option String) (lb : Option JVal),
      (∀ s ∈ pre, terminal3 (some s) = false) → terminal3 status = false →
      fireflyLoop status lb (pre.map statusResp ++ statusResp t :: post)
        = ⟨pre.length + 1, List.replicate (pre.length + 1) 5,
           fireflyExitOutcome (some t) (some (statusBody t))⟩ := by
  induction pre with
  | nil =>
    intro status lb _ hst
    rw [List.map_nil, List.nil_append, fireflyLoop_cons_status _ _ _ _ hst,
      fireflyLoop_terminal _ _ _ ht]
    simp [fireflyExit]
  | cons s pre ih =>
    intro status lb hpre hst
    have hs : terminal3 (some s) = false := hpre s (List.mem_cons_self _ _)
    have hrest : ∀ x ∈ pre, terminal3 (some x) = false :=
      fun x hx => hpre x (List.mem_cons_of_mem _ hx)
    rw [List.map_cons, List.cons_append, fireflyLoop_cons_status _ _ _ _ hst,
      ih (some s) (some (statusBody s)) hrest hs]
    simp [List.replicate_succ]

theorem fireflyLoop_transport (pre : List String) (code : Nat) (body : JVal)
    (post : List HttpResp) (hcode : raisesForStatus code = true) :
    ∀ (status : Option String) (lb : Option JVal),
      (∀ s ∈ pre, terminal3 (some s) = false) → terminal3 status = false →
      fireflyLoop status lb (pre.map statusResp ++ (⟨code, body⟩ : HttpResp) :: post)
        = ⟨pre.length + 1, List.replicate (pre.length + 1) 5, .transport code⟩ := by
  induction pre with
  | nil =>
    intro status lb _ hst
    simp [fireflyLoop, hst, hcode]
  | cons s pre ih =>
    intro status lb hpre hst
    have hs : terminal3 (some s) = false := hpre s (List.mem_cons_self _ _)
    have hrest : ∀ x ∈ pre, terminal3 (some x) = false :=
      fun x hx => hpre x (List.mem_cons_of_mem _ hx)
    rw [List.map_cons, List.cons_append, fireflyLoop_cons_status _ _ _ _ hst,
      ih (some s) (some (statusBody s)) hrest hs]
    simp [List.replicate_succ]

theorem imageCallbackLoop_run (pre : List String) (t : String) (post : List HttpResp)
    (ht : terminal2 (some t) = true) :
    ∀ (g : Nat) (status : Option String),
      (∀ s ∈ pre, terminal2 (some s) = false) → terminal2 status = false →
      imageCallbackLoop g status (pre.map statusResp ++ statusResp t :: post)
        = (⟨pre.length + 1, (List.range pre.length).map (fun k => 2 ^ (g + k + 1)),
            .returned (statusBody t)⟩, g + (pre.length + 1)) := by
  induction pre with
  | nil =>
    intro g status _ hst
    rw [List.map_nil, List.nil_append, imageCallbackLoop_cons_status_done _ _ _ _ hst ht]
    simp
  | cons s pre ih =>
    intro g status hpre hst
    have hs : terminal2 (some s) = false := hpre s (List.mem_cons_self _ _)
    have hrest : ∀ x ∈ pre, terminal2 (some x) = false :=
      fun x hx => hpre x (List.mem_cons_of_mem _ hx)
    rw [List.map_cons, List.cons_append, imageCallbackLoop_cons_status _ _ _ _ hst hs,
      ih (g + 1) (some s) hrest hs]
    show ((⟨pre.length + 1 + 1,
           2 ^ (g + 1) :: (List.range pre.length).map (fun k => 2 ^ (g + 1 + k + 1)),
           PollOutcome.returned (statusBody t)⟩ : PollTrace),
          g + 1 + (pre.length + 1))
        = ((⟨(s :: pre).length + 1,
            (List.range (s :: pre).length).map (fun k => 2 ^ (g + k + 1)),
            PollOutcome.returned (statusBody t)⟩ : PollTrace),
           g + ((s :: pre).length + 1))
    rw [pow_sleeps_shift]
    simp only [List.length_cons]
    exact congrArg₂ Prod.mk rfl (by omega)

theorem imageCallbackLoop_transport (pre : List String) (code : Nat) (body : JVal)
    (post : List HttpResp) (hcode : raisesForStatus code = true) :
    ∀ (g : Nat) (status : Option String),
      (∀ s ∈ pre, terminal2 (some s) = false) → terminal2 status = false →
      imageCallbackLoop g status (pre.map statusResp ++ (⟨code, body⟩ : HttpResp) :: post)
        = (⟨pre.length + 1, (List.range pre.length).map (fun k => 2 ^ (g + k + 1)),
            .transport code⟩, g + (pre.length + 1)) := by
  induction pre with
  | nil =>
    intro g status _ hst
    simp [imageCallbackLoop, hst, hcode]
  | cons s pre ih =>
    intro g status hpre hst
    have hs : terminal2 (some s) = false := hpre s (List.mem_cons_self _ _)
    have hrest : ∀ x ∈ pre, terminal2 (some x) = false :=
      fun x hx => hpre x (List.mem_cons_of_mem _ hx)
    rw [List.map_cons, List.cons_append, imageCallbackLoop_cons_status _ _ _ _ hst hs,
      ih (g + 1) (some s) hrest hs]
    show ((⟨pre.length + 1 + 1,
           2 ^ (g + 1) :: (List.range pre.length).map (fun k => 2 ^ (g + 1 + k + 1)),
           PollOutcome.transport code⟩ : PollTrace),
          g + 1 + (pre.length + 1))
        = ((⟨(s :: pre).length + 1,
            (List.range (s :: pre).length).map (fun k => 2 ^ (g + k + 1)),
            PollOutcome.transport code⟩ : PollTrace),
           g + ((s :: pre).length + 1))
    rw [pow_sleeps_shift]
    simp only [List.length_cons]
    exact congrArg₂ Prod.mk rfl (by omega)

theorem exitLog_ne_needMore (status : Option String) : exitLog status ≠ PollOutcome.needMore := by
  unfold exitLog
  split <;> simp

theorem fireflySuccess_ne_needMore (b : JVal) : fireflySuccess b ≠ PollOutcome.needMore := by
  unfold fireflySuccess
  repeat' split
  all_goals simp

theorem fireflyExitOutcome_ne_needMore (status : Option String) (lb : Option JVal) :
    fireflyExitOutcome status lb ≠ PollOutcome.needMore := by
  unfold fireflyExitOutcome
  split
  · split
    · exact fireflySuccess_ne_needMore _
    · simp
  · simp

theorem fireflyLoop_stops (u : String) (hu : terminal3 (some u) = true) :
    ∀ (resps : List HttpResp) (i : Nat) (status : Option String) (lb : Option JVal),
      resps[i]? = some (statusResp u) →
      (fireflyLoop status lb resps).outcome ≠ PollOutcome.needMore := by
  intro resps
  induction resps with
  | nil => intro i status lb hi; simp at hi
  | cons r rest ih =>
    intro i status lb hi
    cases h : terminal3 status with
    | true =>
      rw [fireflyLoop_terminal _ _ _ h]
      exact fireflyExitOutcome_ne_needMore _ _
    | false =>
      cases hr : raisesForStatus r.statusCode with
      | true => simp [fireflyLoop, h, hr]
      | false =>
        have houter : (fireflyLoop status lb (r :: rest)).outcome
            = (fireflyLoop ((r.body.getField "status").bind JVal.asStr) (some r.body) rest).outcome := by
          simp [fireflyLoop, h, hr]
        rw [houter]
        cases i with
        | zero =>
          simp only [List.getElem?_cons_zero, Option.some.injEq] at hi
          subst hi
          rw [statusResp_extract, fireflyLoop_terminal _ _ _ hu]
          exact fireflyExitOutcome_ne_needMore (some u) (some (statusResp u).body)
        | succ j =>
          simp only [List.getElem?_cons_succ] at hi
          exact ih j _ _ hi

theorem photoshopLoop_stops (u : String) (hu : terminal2 (some u) = true) :
    ∀ (resps : List HttpResp) (i : Nat) (status : Option String),
      resps[i]? = some (statusResp u) →
      (photoshopLoop status resps).outcome ≠ PollOutcome.needMore := by
  intro resps
  induction resps with
  | nil => intro i status hi; simp at hi
  | cons r rest ih =>
    intro i status hi
    cases h : terminal2 status with
    | true =>
      rw [photoshopLoop_terminal _ _ h]
      exact exitLog_ne_needMore _
    | false =>
      cases hr : raisesForStatus r.statusCode with
      | true => simp [photoshopLoop, h, hr]
      | false =>
        have houter : (photoshopLoop status (r :: rest)).outcome
            = (photoshopLoop ((r.body.getField "status").bind JVal.asStr) rest).outcome := by
          simp [photoshopLoop, h, hr]
        rw [houter]
        cases i with
        | zero =>
          simp only [List.getElem?_cons_zero, Option.some.injEq] at hi
          subst hi
          rw [statusResp_extract, photoshopLoop_terminal _ _ hu]
          exact exitLog_ne_needMore _
        | succ j =>
          simp only [List.getElem?_cons_succ] at hi
          exact ih j _ hi

theorem lightroomLoop_stops (u : String) (hu : terminal2 (some u) = true) :
    ∀ (resps : List HttpResp) (i : Nat) (status : Option String),
      resps[i]? = some (nestedResp u) →
      (lightroomLoop status resps).outcome ≠ PollOutcome.needMore := by
  intro resps
  induction resps with
  | nil => intro i status hi; simp at hi
  | cons r rest ih =>
    intro i status hi
    cases h : terminal2 status with
    | true =>
      rw [lightroomLoop_terminal _ _ h]
      exact exitLog_ne_needMore _
    | false =>
      cases hr : raisesForStatus r.statusCode with
      | true => simp [lightroomLoop, h, hr]
      | false =>
        cases hex : lightroomExtract r.body status with
        | error m => simp [lightroomLoop, h, hr, hex]
        | ok st =>
          have houter : (lightroomLoop status (r :: rest)).outcome
              = (lightroomLoop st rest).outcome := by
            simp [lightroomLoop, h, hr, hex]
          rw [houter]
          cases i with
          | zero =>
            simp only [List.getElem?_cons_zero, Option.some.injEq] at hi
            subst hi
            rw [show (nestedResp u).body = nestedBody u from rfl,
              lightroomExtract_nested] at hex
            cases hex
            rw [lightroomLoop_terminal _ _ hu]
            exact exitLog_ne_needMore _
          | succ j =>
            simp only [List.getElem?_cons_succ] at hi
            exact ih j _ hi

theorem imageCallbackLoop_stops (u : String) (hu : terminal2 (some u) = true) :
    ∀ (resps : List HttpResp) (i : Nat) (g : Nat) (status : Option String),
      resps[i]? = some (nestedResp u) →
      (imageCallbackLoop g status resps).1.outcome ≠ PollOutcome.needMore := by
  intro resps
  induction resps with
  | nil => intro i g status hi; simp at hi
  | cons r rest ih =>
    intro i g status hi
    cases h : terminal2 status with
    | true => simp [imageCallbackLoop_terminal _ _ _ h]
    | false =>
      cases hr : raisesForStatus r.statusCode with
      | true => simp [imageCallbackLoop, h, hr]
      | false =>
        cases hex : imageExtract r.body status with
        | error m => simp [imageCallbackLoop, h, hr, hex]
        | ok st =>
          cases hst : terminal2 st with
          | true => simp [imageCallbackLoop, h, hr, hex, hst]
          | false =>
            have houter : (imageCallbackLoop g status (r :: rest)).1.outcome
                = (imageCallbackLoop (g + 1) st rest).1.outcome := by
              simp [imageCallbackLoop, h, hr, hex, hst]
            rw [houter]
            cases i with
            | zero =>
              simp only [List.getElem?_cons_zero, Option.some.injEq] at hi
              subst hi
              rw [show (nestedResp u).body = nestedBody u from rfl,
                imageExtract_nested] at hex
              cases hex
              rw [hu] at hst
              cases hst
            | succ j =>
              simp only [List.getElem?_cons_succ] at hi
              exact ih j _ _ hi

theorem fireflyLoop_sleeps_fixed :
    ∀ (resps : List HttpResp) (status : Option String) (lb : Option JVal),
      (fireflyLoop status lb resps).sleeps
        = List.replicate (fireflyLoop status lb resps).gets 5 := by
  intro resps
  induction resps with
  | nil =>
    intro status lb
    cases h : terminal3 status <;> simp [fireflyLoop, h, fireflyExit]
  | cons r rest ih =>
    intro status lb
    cases h : terminal3 status with
    | true => simp [fireflyLoop, h, fireflyExit]
    | false =>
      cases hr : raisesForStatus r.statusCode with
      | true => simp [fireflyLoop, h, hr]
      | false => simp [fireflyLoop, h, hr, ih, List.replicate_succ]

theorem photoshopLoop_sleeps_fixed :
    ∀ (resps : List HttpResp) (status : Option String),
      (photoshopLoop status resps).sleeps
        = List.replicate (photoshopLoop status resps).gets 5 := by
  intro resps
  induction resps with
  | nil =>
    intro status
    cases h : terminal2 status <;> simp [photoshopLoop, h]
  | cons r rest ih =>
    intro status
    cases h : terminal2 status with
    | true => simp [photoshopLoop, h]
    | false =>
      cases hr : raisesForStatus r.statusCode with
      | true => simp [photoshopLoop, h, hr]
      | false => simp [photoshopLoop, h, hr, ih, List.replicate_succ]

theorem lightroomLoop_sleeps_fixed :
    ∀ (resps : List HttpResp) (status : Option String),
      (lightroomLoop status resps).sleeps
        = List.replicate (lightroomLoop status resps).gets 5 := by
  intro resps
  induction resps with
  | nil =>
    intro status
    cases h : terminal2 status <;> simp [lightroomLoop, h]
  | cons r rest ih =>
    intro status
    cases h : terminal2 status with
    | true => simp [lightroomLoop, h]
    | false =>
      cases hr : raisesForStatus r.statusCode with
      | true => simp [lightroomLoop, h, hr]
      | false =>
        cases hex : lightroomExtract r.body status with
        | error m => simp [lightroomLoop, h, hr, hex]
        | ok st => simp [lightroomLoop, h, hr, hex, ih, List.replicate_succ]

theorem lightroomExtract_emptyOutputs (old : Option String) :
    lightroomExtract (JVal.obj [("outputs", JVal.arr [])]) old = .ok old := by
  simp [lightroomExtract, JVal.getField, lookupField]

theorem imageExtract_blankOutput (old : Option String) :
    imageExtract (JVal.obj [("outputs", JVal.arr [JVal.obj []])]) old = .ok old := by
  simp [imageExtract, JVal.getField, lookupField]

theorem lightroomLoop_emptyOutputs (n : Nat) :
    ∀ (status : Option String), terminal2 status = false →
      lightroomLoop status (List.replicate n emptyOutputsResp)
        = ⟨n, List.replicate n 5, .needMore⟩ := by
  induction n with
  | zero => intro status h; simp [lightroomLoop, h]
  | succ m ih =>
    intro status h
    rw [List.replicate_succ]
    have hr : raisesForStatus emptyOutputsResp.statusCode = false := by decide
    have hex : lightroomExtract emptyOutputsResp.body status = .ok status :=
      lightroomExtract_emptyOutputs status
    simp [lightroomLoop, h, hr, hex, ih status h, List.replicate_succ]

theorem imageCallbackLoop_blankOutput (n : Nat) :
    ∀ (g : Nat) (status : Option String), terminal2 status = false →
      (imageCallbackLoop g status (List.replicate n blankOutputResp)).1.outcome
        = PollOutcome.needMore := by
  induction n with
  | zero => intro g status h; simp [imageCallbackLoop, h]
  | succ m ih =>
    intro g status h
    rw [List.replicate_succ]
    have hr : raisesForStatus blankOutputResp.statusCode = false := by decide
    have hex : imageExtract blankOutputResp.body status = .ok status :=
      imageExtract_blankOutput status
    simp [imageCallbackLoop, h, hr, hex, ih (g + 1) status h]

/-- C1: for every sequence of status responses whose first terminal status
appears at position n+1 after n non-terminal statuses, the poll loop
(`check_firefly_job_status` with its terminal set, `success_image_callback`
with its terminal set) issues exactly n+1 GET requests and returns when the
terminal status is first observed: the whole trace is independent of any
responses after the terminal one, so no GET is issued afterward. -/
theorem C1_poll_issues_exactly_n_plus_one_gets (pre : List String) (t : String)
    (post : List HttpResp) (g : Nat)
    (hpre : ∀ s ∈ pre, terminal3 (some s) = false) :
    (terminal3 (some t) = true →
      check_firefly_job_status (pre.map statusResp ++ statusResp t :: post)
        = check_firefly_job_status (pre.map statusResp ++ [statusResp t])
      ∧ (check_firefly_job_status (pre.map statusResp ++ statusResp t :: post)).gets
          = pre.length + 1)
    ∧ (terminal2 (some t) = true →
      success_image_callback g (pre.map statusResp ++ statusResp t :: post)
        = success_image_callback g (pre.map statusResp ++ [statusResp t])
      ∧ (success_image_callback g (pre.map statusResp ++ statusResp t :: post)).1.gets
          = pre.length + 1
      ∧ (success_image_callback g (pre.map statusResp ++ statusResp t :: post)).1.outcome
          = PollOutcome.returned (statusBody t)) := by
  constructor
  · intro ht
    have hpend : terminal3 (some "pending") = false := by decide
    have h1 := fireflyLoop_run pre t post ht (some "pending") none hpre hpend
    have h2 := fireflyLoop_run pre t [] ht (some "pending") none hpre hpend
    unfold check_firefly_job_status
    rw [h1, h2]
    exact ⟨rfl, rfl⟩
  · intro ht
    have hpre2 : ∀ s ∈ pre, terminal2 (some s) = false :=
      fun s hs => terminal2_false_of_terminal3 (hpre s hs)
    have hblank : terminal2 (some "") = false := by decide
    have h1 := imageCallbackLoop_run pre t post ht g (some "") hpre2 hblank
    have h2 := imageCallbackLoop_run pre t [] ht g (some "") hpre2 hblank
    unfold success_image_callback
    rw [h1, h2]
    exact ⟨rfl, rfl, rfl⟩

/-- C1 witness: three `pending` responses followed by `succeeded` give exactly
4 GET requests, in both loops. -/
theorem C1_witness :
    (∀ s ∈ ["pending", "pending", "pending"], terminal3 (some s) = false)
    ∧ terminal3 (some "succeeded") = true
    ∧ terminal2 (some "succeeded") = true
    ∧ (check_firefly_job_status ((["pending", "pending", "pending"].map statusResp)
        ++ statusResp "succeeded" :: [statusResp "pending"])).gets = 4
    ∧ (success_image_callback 0 ((["pending", "pending", "pending"].map statusResp)
        ++ statusResp "succeeded" :: [statusResp "pending"])).1.gets = 4 := by
  refine ⟨by decide, by decide, by decide, ?_, ?_⟩
  · exact ((C1_poll_issues_exactly_n_plus_one_gets ["pending", "pending", "pending"]
      "succeeded" [statusResp "pending"] 0 (by decide)).1 (by decide)).2
  · exact ((C1_poll_issues_exactly_n_plus_one_gets ["pending", "pending", "pending"]
      "succeeded" [statusResp "pending"] 0 (by decide)).2 (by decide)).2.1

theorem photoshopLoop_cancelled_forever (n : Nat) :
    ∀ (status : Option String), terminal2 status = false →
      photoshopLoop status (List.replicate n (statusResp "cancelled"))
        = ⟨n, List.replicate n 5, PollOutcome.needMore⟩ := by
  induction n with
  | zero => intro status h; simp [photoshopLoop, h]
  | succ m ih =>
    intro status h
    rw [List.replicate_succ, photoshopLoop_cons_status status "cancelled" _ h,
      ih (some "cancelled") (by decide)]
    simp [List.replicate_succ]

theorem lightroomLoop_cancelled_forever (n : Nat) :
    ∀ (status : Option String), terminal2 status = false →
      lightroomLoop status (List.replicate n (nestedResp "cancelled"))
        = ⟨n, List.replicate n 5, PollOutcome.needMore⟩ := by
  induction n with
  | zero => intro status h; simp [lightroomLoop, h]
  | succ m ih =>
    intro status h
    rw [List.replicate_succ, lightroomLoop_cons_nested status "cancelled" _ h,
      ih (some "cancelled") (by decide)]
    simp [List.replicate_succ]

theorem imageCallbackLoop_cancelled_forever (n : Nat) :
    ∀ (g : Nat) (status : Option String), terminal2 status = false →
      (imageCallbackLoop g status (List.replicate n (statusResp "cancelled"))).1.outcome
        = PollOutcome.needMore := by
  induction n with
  | zero => intro g status h; simp [imageCallbackLoop, h]
  | succ m ih =>
    intro g status h
    rw [List.replicate_succ, imageCallbackLoop_cons_status g status "cancelled" _ h (by decide)]
    exact ih (g + 1) (some "cancelled") (by decide)

/-- C2 counterexample: the claim says every poll loop terminates on any input
that eventually reaches succeeded, failed or cancelled; but on an input whose
every response reports the terminal status `cancelled`, the lightroom loop
consumes all four responses, issues four GETs, and is still polling — it has
not terminated at any of them. -/
theorem C2_counterexample :
    (check_lightroom_job_status (List.replicate 4 (nestedResp "cancelled"))).outcome
      = PollOutcome.needMore
    ∧ (check_lightroom_job_status (List.replicate 4 (nestedResp "cancelled"))).gets = 4 :=
  ⟨rfl, rfl⟩

/-- C2 amended: every poll loop terminates on any input that eventually
reaches a status in that loop's own terminal set — succeeded/failed/cancelled
for the firefly loop, succeeded/failed for the photoshop, lightroom and
image-callback loops: given such a response at some position of the input, no
loop consumes the whole input while still polling (each stops at the terminal
response or aborts earlier on an exception).  An input reaching only
`cancelled`, however, leaves the photoshop, lightroom and image-callback
loops polling forever: after any number n of `cancelled` responses they are
still polling. -/
theorem C2_per_loop_termination (resps respsTop respsPs : List HttpResp)
    (i j l : Nat) (t u v : String) (g n : Nat)
    (hi : resps[i]? = some (nestedResp t)) (ht : terminal2 (some t) = true)
    (hj : respsTop[j]? = some (statusResp u)) (hu : terminal3 (some u) = true)
    (hl : respsPs[l]? = some (statusResp v)) (hv : terminal2 (some v) = true) :
    (check_lightroom_job_status resps).outcome ≠ PollOutcome.needMore
    ∧ (success_image_callback g resps).1.outcome ≠ PollOutcome.needMore
    ∧ (check_firefly_job_status respsTop).outcome ≠ PollOutcome.needMore
    ∧ (check_photoshop_job_status respsPs).outcome ≠ PollOutcome.needMore
    ∧ (check_photoshop_job_status (List.replicate n (statusResp "cancelled"))).outcome
        = PollOutcome.needMore
    ∧ (check_lightroom_job_status (List.replicate n (nestedResp "cancelled"))).outcome
        = PollOutcome.needMore
    ∧ (success_image_callback g (List.replicate n (statusResp "cancelled"))).1.outcome
        = PollOutcome.needMore := by
  refine ⟨?_, ?_, ?_, ?_, ?_, ?_, ?_⟩
  · exact lightroomLoop_stops t ht resps i (some "pending") hi
  · exact imageCallbackLoop_stops t ht resps i g (some "") hi
  · exact fireflyLoop_stops u hu respsTop j (some "pending") none hj
  · exact photoshopLoop_stops v hv respsPs l (some "submitted") hl
  · rw [show check_photoshop_job_status (List.replicate n (statusResp "cancelled"))
        = photoshopLoop (some "submitted") (List.replicate n (statusResp "cancelled")) from rfl,
      photoshopLoop_cancelled_forever n (some "submitted") (by decide)]
  · rw [show check_lightroom_job_status (List.replicate n (nestedResp "cancelled"))
        = lightroomLoop (some "pending") (List.replicate n (nestedResp "cancelled")) from rfl,
      lightroomLoop_cancelled_forever n (some "pending") (by decide)]
  · exact imageCallbackLoop_cancelled_forever n g (some "") (by decide)

/-- C2 witness: concrete terminal inputs for all four loops (including
`cancelled` as the terminal status stopping the firefly loop), and two
`cancelled`-only responses leaving the other three loops still polling. -/
theorem C2_witness :
    (check_lightroom_job_status [nestedResp "succeeded"]).outcome ≠ PollOutcome.needMore
    ∧ (success_image_callback 0 [nestedResp "succeeded"]).1.outcome ≠ PollOutcome.needMore
    ∧ (check_firefly_job_status [statusResp "cancelled"]).outcome ≠ PollOutcome.needMore
    ∧ (check_photoshop_job_status [statusResp "failed"]).outcome ≠ PollOutcome.needMore
    ∧ (check_photoshop_job_status (List.replicate 2 (statusResp "cancelled"))).outcome
        = PollOutcome.needMore
    ∧ (check_lightroom_job_status (List.replicate 2 (nestedResp "cancelled"))).outcome
        = PollOutcome.needMore
    ∧ (success_image_callback 0 (List.replicate 2 (statusResp "cancelled"))).1.outcome
        = PollOutcome.needMore :=
  C2_per_loop_termination [nestedResp "succeeded"] [statusResp "cancelled"] [statusResp "failed"]
    0 0 0 "succeeded" "cancelled" "failed" 0 2 rfl (by decide) rfl (by decide) rfl (by decide)

/-- C3 counterexample: the claim says every poll loop stops exactly on
`succeeded`, `failed` or `cancelled`; but after observing `cancelled` the
photoshop loop has not stopped (it still demands another response), and given
one more response it issues a second GET. -/
theorem C3_counterexample :
    check_photoshop_job_status [statusResp "cancelled"] = ⟨1, [5], PollOutcome.needMore⟩
    ∧ (check_photoshop_job_status [statusResp "cancelled", statusResp "succeeded"]).gets = 2 :=
  ⟨rfl, rfl⟩

/-- C3 amended: the firefly loop stops exactly on
`succeeded`/`failed`/`cancelled`; the photoshop, lightroom and image-callback
loops stop exactly on `succeeded`/`failed`, so `cancelled` (like `pending` and
`submitted`) causes another poll iteration there.  Stopping at a status is
expressed as the trace being independent of all later responses. -/
theorem C3_terminal_status_sets (s : String) :
    ((∀ post, check_firefly_job_status (statusResp s :: post)
        = check_firefly_job_status [statusResp s]) ↔ terminal3 (some s) = true)
    ∧ ((∀ post, check_photoshop_job_status (statusResp s :: post)
        = check_photoshop_job_status [statusResp s]) ↔ terminal2 (some s) = true)
    ∧ ((∀ post, check_lightroom_job_status (nestedResp s :: post)
        = check_lightroom_job_status [nestedResp s]) ↔ terminal2 (some s) = true)
    ∧ (∀ g, (∀ post, success_image_callback g (statusResp s :: post)
        = success_image_callback g [statusResp s]) ↔ terminal2 (some s) = true) := by
  refine ⟨⟨?_, ?_⟩, ⟨?_, ?_⟩, ⟨?_, ?_⟩, fun g => ⟨?_, ?_⟩⟩
  · intro hAll
    by_contra hne
    have hs : terminal3 (some s) = false := by
      revert hne; cases terminal3 (some s) <;> simp
    have h1 := hAll [⟨500, JVal.null⟩]
    unfold check_firefly_job_status at h1
    rw [fireflyLoop_cons_status (some "pending") none s [⟨(500 : Nat), JVal.null⟩] (by decide),
      fireflyLoop_cons_status (some "pending") none s [] (by decide)] at h1
    have hin1 : fireflyLoop (some s) (some (statusBody s)) [⟨(500 : Nat), JVal.null⟩]
        = ⟨1, [5], .transport 500⟩ := by
      simp [fireflyLoop, hs, raisesForStatus_500]
    have hin2 : fireflyLoop (some s) (some (statusBody s)) [] = ⟨0, [], .needMore⟩ := by
      simp [fireflyLoop, hs]
    rw [hin1, hin2] at h1
    simp at h1
  · intro ht post
    unfold check_firefly_job_status
    rw [fireflyLoop_cons_status (some "pending") none s post (by decide),
      fireflyLoop_cons_status (some "pending") none s [] (by decide),
      fireflyLoop_terminal _ _ post ht, fireflyLoop_terminal _ _ [] ht]
  · intro hAll
    by_contra hne
    have hs : terminal2 (some s) = false := by
      revert hne; cases terminal2 (some s) <;> simp
    have h1 := hAll [⟨500, JVal.null⟩]
    unfold check_photoshop_job_status at h1
    rw [photoshopLoop_cons_status (some "submitted") s [⟨(500 : Nat), JVal.null⟩] (by decide),
      photoshopLoop_cons_status (some "submitted") s [] (by decide)] at h1
    have hin1 : photoshopLoop (some s) [⟨(500 : Nat), JVal.null⟩] = ⟨1, [5], .transport 500⟩ := by
      simp [photoshopLoop, hs, raisesForStatus_500]
    have hin2 : photoshopLoop (some s) [] = ⟨0, [], .needMore⟩ := by
      simp [photoshopLoop, hs]
    rw [hin1, hin2] at h1
    simp at h1
  · intro ht post
    unfold check_photoshop_job_status
    rw [photoshopLoop_cons_status (some "submitted") s post (by decide),
      photoshopLoop_cons_status (some "submitted") s [] (by decide),
      photoshopLoop_terminal _ post ht, photoshopLoop_terminal _ [] ht]
  · intro hAll
    by_contra hne
    have hs : terminal2 (some s) = false := by
      revert hne; cases terminal2 (some s) <;> simp
    have h1 := hAll [⟨500, JVal.null⟩]
    unfold check_lightroom_job_status at h1
    rw [lightroomLoop_cons_nested (some "pending") s [⟨(500 : Nat), JVal.null⟩] (by decide),
      lightroomLoop_cons_nested (some "pending") s [] (by decide)] at h1
    have hin1 : lightroomLoop (some s) [⟨(500 : Nat), JVal.null⟩] = ⟨1, [5], .transport 500⟩ := by
      simp [lightroomLoop, hs, raisesForStatus_500]
    have hin2 : lightroomLoop (some s) [] = ⟨0, [], .needMore⟩ := by
      simp [lightroomLoop, hs]
    rw [hin1, hin2] at h1
    simp at h1
  · intro ht post
    unfold check_lightroom_job_status
    rw [lightroomLoop_cons_nested (some "pending") s post (by decide),
      lightroomLoop_cons_nested (some "pending") s [] (by decide),
      lightroomLoop_terminal _ post ht, lightroomLoop_terminal _ [] ht]
  · intro hAll
    by_contra hne
    have hs : terminal2 (some s) = false := by
      revert hne; cases terminal2 (some s) <;> simp
    have h1 := hAll [⟨500, JVal.null⟩]
    unfold success_image_callback at h1
    rw [imageCallbackLoop_cons_status g (some "") s [⟨(500 : Nat), JVal.null⟩] (by decide) hs,
      imageCallbackLoop_cons_status g (some "") s [] (by decide) hs] at h1
    have hin1 : imageCallbackLoop (g + 1) (some s) [⟨(500 : Nat), JVal.null⟩]
        = (⟨1, [], .transport 500⟩, g + 1 + 1) := by
      simp [imageCallbackLoop, hs, raisesForStatus_500]
    have hin2 : imageCallbackLoop (g + 1) (some s) [] = (⟨0, [], .needMore⟩, g + 1) := by
      simp [imageCallbackLoop, hs]
    rw [hin1, hin2] at h1
    simp at h1
  · intro ht post
    unfold success_image_callback
    rw [imageCallbackLoop_cons_status_done g (some "") s post (by decide) ht,
      imageCallbackLoop_cons_status_done g (some "") s [] (by decide) ht]

/-- C4: the claim says a terminal `failed` status yields a distinguishable
JobFailed failure; evaluating the code at that input shows otherwise:
`check_firefly_job_status` just logs and returns Python `None`, and
`success_image_callback` returns the retrieved body through the very same
return path it uses for `succeeded`. -/
theorem C4_failed_is_silent :
    check_firefly_job_status [statusResp "failed"] = ⟨1, [5], PollOutcome.noneAfterLog false⟩
    ∧ success_image_callback 0 [statusResp "failed"]
        = (⟨1, [], PollOutcome.returned (statusBody "failed")⟩, 1)
    ∧ success_image_callback 0 [statusResp "succeeded"]
        = (⟨1, [], PollOutcome.returned (statusBody "succeeded")⟩, 1) :=
  ⟨rfl, rfl, rfl⟩

/-- C5: a poll iteration that receives an HTTP error response (4xx/5xx, e.g.
500) aborts at once: the whole trace is independent of the remaining
responses, exactly one GET was issued for that iteration, and the raised
transport error surfaces to the caller. -/
theorem C5_transport_error_aborts (pre : List String) (code : Nat) (body : JVal)
    (post : List HttpResp) (g : Nat)
    (hpre : ∀ s ∈ pre, terminal3 (some s) = false)
    (hcode : 400 ≤ code ∧ code < 600) :
    check_firefly_job_status (pre.map statusResp ++ (⟨code, body⟩ : HttpResp) :: post)
      = ⟨pre.length + 1, List.replicate (pre.length + 1) 5, PollOutcome.transport code⟩
    ∧ success_image_callback g (pre.map statusResp ++ (⟨code, body⟩ : HttpResp) :: post)
      = (⟨pre.length + 1, (List.range pre.length).map (fun k => 2 ^ (g + k + 1)),
          PollOutcome.transport code⟩, g + (pre.length + 1)) := by
  have hr : raisesForStatus code = true := by
    simp only [raisesForStatus, decide_eq_true_eq]
    exact hcode
  constructor
  · exact fireflyLoop_transport pre code body post hr (some "pending") none hpre (by decide)
  · have hpre2 : ∀ s ∈ pre, terminal2 (some s) = false :=
      fun s hs => terminal2_false_of_terminal3 (hpre s hs)
    exact imageCallbackLoop_transport pre code body post hr g (some "") hpre2 (by decide)

/-- C5 witness: one `pending` response, then an HTTP 500: both polls abort
after the second GET, ignoring the remaining responses. -/
theorem C5_witness :
    (∀ s ∈ ["pending"], terminal3 (some s) = false)
    ∧ (400 ≤ 500 ∧ 500 < 600)
    ∧ check_firefly_job_status (["pending"].map statusResp
        ++ (⟨500, JVal.null⟩ : HttpResp) :: [statusResp "succeeded"])
        = ⟨2, [5, 5], PollOutcome.transport 500⟩
    ∧ success_image_callback 0 (["pending"].map statusResp
        ++ (⟨500, JVal.null⟩ : HttpResp) :: [statusResp "succeeded"])
        = (⟨2, [2], PollOutcome.transport 500⟩, 2) := by
  have h := C5_transport_error_aborts ["pending"] 500 JVal.null [statusResp "succeeded"] 0
    (by decide) (by decide)
  exact ⟨by decide, by decide, h.1, h.2⟩

/-- C6: for a response body of the nested shape
`{"outputs": [{"status": s}]}` with no top-level status field, both nested
extractors yield `s`; in particular for `s = "succeeded"` the lightroom loop
stops and takes its success branch, and the image-callback loop stops and
returns the body. -/
theorem C6_nested_shape_extractor (s : String) (old : Option String) :
    lightroomExtract (nestedBody s) old = .ok (some s)
    ∧ imageExtract (nestedBody s) old = .ok (some s)
    ∧ check_lightroom_job_status [nestedResp "succeeded"]
        = ⟨1, [5], PollOutcome.noneAfterLog true⟩
    ∧ (∀ g, success_image_callback g [nestedResp "succeeded"]
        = (⟨1, [], PollOutcome.returned (nestedBody "succeeded")⟩, g + 1)) :=
  ⟨lightroomExtract_nested s old, imageExtract_nested s old, rfl, fun _ => rfl⟩

/-- C7 counterexample: the claim says the delay after the k-th status check of
a poll is `2^k` seconds with k the poll's own attempt count; but the counter
is the process-global `fetch_count`.  After one earlier poll has consumed one
fetch (leaving the global counter at 1), the next poll's first delay is
`2^2 = 4` seconds, not `2^1`. -/
theorem C7_counterexample :
    (success_image_callback 0 [statusResp "succeeded"]).2 = 1
    ∧ (success_image_callback (success_image_callback 0 [statusResp "succeeded"]).2
        [statusResp "pending", statusResp "succeeded"]).1.sleeps = [4]
    ∧ (4 : Nat) ≠ 2 ^ 1 :=
  ⟨rfl, rfl, by decide⟩

/-- C7 amended: the firefly, photoshop and lightroom loops sleep a fixed 5
seconds before every GET; the image-callback loop sleeps `2^(g+k)` seconds
after its k-th status check, where `g` is the value of the process-global
`fetch_count` when the poll began — equal to `2^k` only when `g = 0`. -/
theorem C7_sleep_policy (resps : List HttpResp) (pre : List String) (t : String) (g : Nat)
    (hpre : ∀ s ∈ pre, terminal2 (some s) = false) (ht : terminal2 (some t) = true) :
    (check_firefly_job_status resps).sleeps
      = List.replicate (check_firefly_job_status resps).gets 5
    ∧ (check_photoshop_job_status resps).sleeps
      = List.replicate (check_photoshop_job_status resps).gets 5
    ∧ (check_lightroom_job_status resps).sleeps
      = List.replicate (check_lightroom_job_status resps).gets 5
    ∧ (success_image_callback g (pre.map statusResp ++ [statusResp t])).1.sleeps
      = (List.range pre.length).map (fun k => 2 ^ (g + k + 1)) := by
  refine ⟨fireflyLoop_sleeps_fixed resps _ _, photoshopLoop_sleeps_fixed resps _,
    lightroomLoop_sleeps_fixed resps _, ?_⟩
  have h := imageCallbackLoop_run pre t [] ht g (some "") hpre (by decide)
  unfold success_image_callback
  rw [h]

/-- C7 witness: a poll entered with the global counter at 3, seeing two
`pending` responses then `failed`, sleeps 16 then 32 seconds. -/
theorem C7_witness :
    (success_image_callback 3 (["pending", "pending"].map statusResp
        ++ [statusResp "failed"])).1.sleeps = [16, 32] := by
  have h := (C7_sleep_policy [] ["pending", "pending"] "failed" 3 (by decide) (by decide)).2.2.2
  rw [h]
  decide

/-- C8: the claim says a status response with the status field missing or in
an unexpected shape makes the loop report an error; evaluating the code shows
otherwise: on bodies `{"outputs": []}` (lightroom loop) and
`{"outputs": [{}]}` (image-callback loop) the status variable is silently left
unchanged, and after any number n of such responses the loops are still
polling — no error is ever reported. -/
theorem C8_malformed_status_loops_forever (n : Nat) (g : Nat) :
    check_lightroom_job_status (List.replicate n emptyOutputsResp)
      = ⟨n, List.replicate n 5, PollOutcome.needMore⟩
    ∧ (success_image_callback g (List.replicate n blankOutputResp)).1.outcome
      = PollOutcome.needMore :=
  ⟨lightroomLoop_emptyOutputs n (some "pending") (by decide),
    imageCallbackLoop_blankOutput n g (some "") (by decide)⟩

/-- C9 counterexample: the claim says every job-related handler raises HTTP
401 on a missing `access_token` cookie; but in `reframe_video` the raised 401
`HTTPException` is caught by the surrounding `except Exception` block and
re-raised with status 500. -/
theorem C9_counterexample :
    handlerRun VendorEndpoint.reframeVideo none
      = (Except.error (PyExc.httpException 500), 0)
    ∧ PyExc.httpException 500 ≠ PyExc.httpException 401 :=
  ⟨rfl, by decide⟩

/-- C9 amended: for every job-related endpoint except `/crop-image`, a missing
`access_token` cookie makes the handler raise an HTTP error before any
outbound vendor request (zero vendor requests are performed); the error status
is 401 everywhere except `/reframe-video`, `/auto-tone` and
`/lightroom-status`, whose blanket `except Exception` converts the 401 into a
500. -/
theorem C9_missing_token_behavior (e : VendorEndpoint) :
    handlerRun e none
      = (Except.error (PyExc.httpException (if tryWrapsCookieCheck e then 500 else 401)), 0) := by
  cases e <;> rfl

/-- C10: in `/get-s3-presigned-url`, any method other than `put_object` is
coerced to `get_object` and the URL is signed for exactly the supplied key,
while for `put_object` the URL is signed for `altered/<key>` rather than the
supplied key. -/
theorem C10_presigned_url_key (b k m : String) (hm : m ≠ "put_object") :
    get_s3_presigned_url b k m = (⟨"get_object", b, k⟩, k.replace "thumbnails/" "")
    ∧ get_s3_presigned_url b k "put_object"
        = (⟨"put_object", b, "altered/" ++ k⟩, ("altered/" ++ k).replace "thumbnails/" "") := by
  constructor
  · simp [get_s3_presigned_url, generate_presigned_url, hm]
  · simp [get_s3_presigned_url, generate_presigned_url]

/-- C10 witness: a `get_object` request is signed for the supplied key
unchanged. -/
theorem C10_witness :
    ("get_object" : String) ≠ "put_object"
    ∧ get_s3_presigned_url "bucket" "photo.png" "get_object"
        = (⟨"get_object", "bucket", "photo.png"⟩,
           ("photo.png" : String).replace "thumbnails/" "") :=
  ⟨by decide, (C10_presigned_url_key "bucket" "photo.png" "get_object" (by decide)).1⟩
